import Mathlib

/-!
Verification of `sipa/static/js/usersuite_index.js`.

A shallow embedding of the seventeen-line page script and the properties its
specification states about it.

The script makes three kinds of calls into code it does not own:

* `tocbot.init({...})` (lines 1-13),
* `document.querySelectorAll('[data-bs-toggle="popover"]')` (line 16),
* `new bootstrap.Popover(popoverTriggerEl)` once per array element inside
  `[...popoverTriggerList].map(...)` (line 17).

Those collaborators are parameters of the model (`Lib`).  Everything outside
the script (the DOM, the libraries' internals) is an abstract world `W` that
is threaded through the calls; a call may raise, and it may have changed the
world before raising.  The script's own state is its two top-level `const`
bindings.  A ghost trace records every library call with its outcome so that
ordering and counting properties can be stated.
-/

set_option autoImplicit false

namespace Sipa

/-! ## Data -/

/-- Values appearing in the object literal handed to `tocbot.init`. -/
inductive JsValue where
  | str (s : String)
  | bool (b : Bool)
  deriving DecidableEq, Repr

/-- An object literal: its own properties as written, in source order. -/
abbrev JsObject := List (String × JsValue)

/-- The object literal of lines 1-13, the argument of `tocbot.init`. -/
def tocbotOptions : JsObject :=
  [ ("tocSelector", JsValue.str ".js-toc"),
    ("contentSelector", JsValue.str ".js-toc-content"),
    ("headingSelector", JsValue.str "h2, h3"),
    ("hasInnerContainers", JsValue.bool true),
    ("positionFixedSelector", JsValue.str "#usersuite-sidebar-nav"),
    ("extraLinkClasses", JsValue.str "text-decoration-none") ]

/-- The selector string of line 16. -/
def popoverSelector : String := "[data-bs-toggle=\"popover\"]"

/-- The external collaborators.  `W` is the world outside the script, `El` the
type of DOM elements, `Ctrl` the type of popover controller objects and `Err`
the type of thrown values.  `tocbotInit` and `newPopover` return the world they
leave behind together with either a normal result or a thrown value;
`querySelectorAll` reads the world and yields the static list of matches in
document order (the selector literal is well formed, so the lookup itself
returns). -/
structure Lib (W El Ctrl Err : Type) where
  tocbotInit : JsObject → W → Except Err Unit × W
  querySelectorAll : String → W → List El
  newPopover : El → W → Except Err Ctrl × W

/-- One library call made by the script, with its argument and its outcome. -/
inductive Event (El Ctrl Err : Type) where
  | tocbotInit (options : JsObject) (result : Except Err Unit)
  | querySelectorAll (selector : String) (result : List El)
  | newPopover (el : El) (result : Except Err Ctrl)

/-- The state after running (part of) the script: the outside world, the ghost
trace of calls, the two top-level `const` bindings (`none` while a binding is
still uninitialised) and how evaluation ended. -/
structure ScriptState (W El Ctrl Err : Type) where
  world : W
  trace : List (Event El Ctrl Err)
  popoverTriggerList : Option (List El)
  popoverList : Option (List Ctrl)
  completion : Except Err Unit

section Defs

variable {W El Ctrl Err : Type}

/-- Is the event a call of `tocbot.init`? -/
def Event.isTocbotInit : Event El Ctrl Err → Bool
  | Event.tocbotInit _ _ => true
  | _ => false

/-- Is the event a call of `document.querySelectorAll`? -/
def Event.isQuerySelectorAll : Event El Ctrl Err → Bool
  | Event.querySelectorAll _ _ => true
  | _ => false

/-- Is the event a call of `new bootstrap.Popover`? -/
def Event.isNewPopover : Event El Ctrl Err → Bool
  | Event.newPopover _ _ => true
  | _ => false

/-- Is the event a call of `new bootstrap.Popover` that returned a controller? -/
def Event.isConstructed : Event El Ctrl Err → Bool
  | Event.newPopover _ (Except.ok _) => true
  | _ => false

/-- The element a constructor call was made on (`none` for the other calls). -/
def Event.popoverTriggerEl : Event El Ctrl Err → Option El
  | Event.newPopover el _ => some el
  | _ => none

/-- The body of line 17: `[...].map(popoverTriggerEl => new bootstrap.Popover(popoverTriggerEl))`.
The callback is applied to the elements from index 0 upwards; each call gets
the element as its only argument; the first call that raises ends the
traversal with that thrown value.  Returns the calls made, the world left
behind and either the array of controllers or the thrown value. -/
def mapPopover (lib : Lib W El Ctrl Err) :
    List El → W → List (Event El Ctrl Err) × W × Except Err (List Ctrl)
  | [], w => ([], w, Except.ok [])
  | popoverTriggerEl :: rest, w =>
    match lib.newPopover popoverTriggerEl w with
    | (Except.error e, w1) =>
      ([Event.newPopover popoverTriggerEl (Except.error e)], w1, Except.error e)
    | (Except.ok c, w1) =>
      match mapPopover lib rest w1 with
      | (tr, w2, Except.error e) =>
        (Event.newPopover popoverTriggerEl (Except.ok c) :: tr, w2, Except.error e)
      | (tr, w2, Except.ok cs) =>
        (Event.newPopover popoverTriggerEl (Except.ok c) :: tr, w2, Except.ok (c :: cs))

/-- Lines 15-17, the popover activation, started in world `w`:
`const popoverTriggerList = document.querySelectorAll(...)` and then
`const popoverList = [...popoverTriggerList].map(...)`. -/
def popoverActivation (lib : Lib W El Ctrl Err) (w : W) : ScriptState W El Ctrl Err :=
  let popoverTriggerList := lib.querySelectorAll popoverSelector w
  match mapPopover lib popoverTriggerList w with
  | (tr, w2, Except.error e) =>
    { world := w2
      trace := Event.querySelectorAll popoverSelector popoverTriggerList :: tr
      popoverTriggerList := some popoverTriggerList
      popoverList := none
      completion := Except.error e }
  | (tr, w2, Except.ok popoverList) =>
    { world := w2
      trace := Event.querySelectorAll popoverSelector popoverTriggerList :: tr
      popoverTriggerList := some popoverTriggerList
      popoverList := some popoverList
      completion := Except.ok () }

/-- The whole script, run once in world `w`: `tocbot.init({...});` and, when
that returns, the popover activation.  Nothing is caught, so a thrown value
ends the script where it is thrown. -/
def script (lib : Lib W El Ctrl Err) (w : W) : ScriptState W El Ctrl Err :=
  match lib.tocbotInit tocbotOptions w with
  | (Except.error e, w1) =>
    { world := w1
      trace := [Event.tocbotInit tocbotOptions (Except.error e)]
      popoverTriggerList := none
      popoverList := none
      completion := Except.error e }
  | (Except.ok u, w1) =>
    let s := popoverActivation lib w1
    { s with trace := Event.tocbotInit tocbotOptions (Except.ok u) :: s.trace }

end Defs

/-! ## Concrete collaborators used to exercise the model -/

/-- A page model for experiments: the list of elements currently matching the
popover selector, and a counter of DOM mutations made so far. -/
structure DemoPage where
  triggers : List String
  mutations : Nat
  deriving DecidableEq, Repr

/-- A well-behaved pair of libraries: `tocbot.init` returns, every constructor
call returns a controller named after its element, each call mutates the DOM. -/
def demoLib : Lib DemoPage String String String where
  tocbotInit := fun _ p => (Except.ok (), { p with mutations := p.mutations + 1 })
  querySelectorAll := fun _ p => p.triggers
  newPopover := fun el p => (Except.ok ("Popover(" ++ el ++ ")"), { p with mutations := p.mutations + 1 })

/-- Libraries whose calls return without touching the world. -/
def inertLib : Lib DemoPage String String String where
  tocbotInit := fun _ p => (Except.ok (), p)
  querySelectorAll := fun _ p => p.triggers
  newPopover := fun el p => (Except.ok ("Popover(" ++ el ++ ")"), p)

/-- Libraries where `tocbot.init` raises (for instance `tocbot` is not loaded). -/
def tocRaisesLib : Lib DemoPage String String String where
  tocbotInit := fun _ p => (Except.error "ReferenceError: tocbot is not defined", p)
  querySelectorAll := fun _ p => p.triggers
  newPopover := fun el p => (Except.ok ("Popover(" ++ el ++ ")"), { p with mutations := p.mutations + 1 })

/-- Libraries where the popover constructor raises on the element `"bad"`. -/
def ctorRaisesLib : Lib DemoPage String String String where
  tocbotInit := fun _ p => (Except.ok (), { p with mutations := p.mutations + 1 })
  querySelectorAll := fun _ p => p.triggers
  newPopover := fun el p =>
    if el = "bad" then (Except.error "TypeError", p)
    else (Except.ok ("Popover(" ++ el ++ ")"), { p with mutations := p.mutations + 1 })

/-! ## Lemmas about the traversal of line 17 -/

section Lemmas

variable {W El Ctrl Err : Type}

/-- The events of constructor calls that returned: element by element. -/
def constructedEvents (els : List El) (cs : List Ctrl) : List (Event El Ctrl Err) :=
  List.zipWith (fun el c => Event.newPopover el (Except.ok c)) els cs

/-- The world left once the constructor has been applied in turn to `els`,
starting in world `w`: each call starts in the world its predecessor left. -/
def worldAfter (lib : Lib W El Ctrl Err) (w : W) (els : List El) : W :=
  els.foldl (fun v el => (lib.newPopover el v).2) w

theorem mapPopover_nil (lib : Lib W El Ctrl Err) (w : W) :
    mapPopover lib [] w = ([], w, Except.ok []) := rfl

theorem mapPopover_cons_error (lib : Lib W El Ctrl Err) (el : El) (rest : List El) (w w1 : W)
    (e : Err) (h : lib.newPopover el w = (Except.error e, w1)) :
    mapPopover lib (el :: rest) w
      = ([Event.newPopover el (Except.error e)], w1, Except.error e) := by
  simp [mapPopover, h]

theorem mapPopover_cons_ok_ok (lib : Lib W El Ctrl Err) (el : El) (rest : List El) (w w1 w2 : W)
    (c : Ctrl) (tr : List (Event El Ctrl Err)) (cs : List Ctrl)
    (h : lib.newPopover el w = (Except.ok c, w1))
    (hrest : mapPopover lib rest w1 = (tr, w2, Except.ok cs)) :
    mapPopover lib (el :: rest) w
      = (Event.newPopover el (Except.ok c) :: tr, w2, Except.ok (c :: cs)) := by
  simp [mapPopover, h, hrest]

theorem mapPopover_cons_ok_error (lib : Lib W El Ctrl Err) (el : El) (rest : List El)
    (w w1 w2 : W) (c : Ctrl) (tr : List (Event El Ctrl Err)) (e : Err)
    (h : lib.newPopover el w = (Except.ok c, w1))
    (hrest : mapPopover lib rest w1 = (tr, w2, Except.error e)) :
    mapPopover lib (el :: rest) w
      = (Event.newPopover el (Except.ok c) :: tr, w2, Except.error e) := by
  simp [mapPopover, h, hrest]

/-- A traversal that returns made one returning constructor call per element,
in order, and collected the controllers in the same order. -/
theorem mapPopover_ok_shape (lib : Lib W El Ctrl Err) :
    ∀ (L : List El) (w w2 : W) (tr : List (Event El Ctrl Err)) (cs : List Ctrl),
      mapPopover lib L w = (tr, w2, Except.ok cs) →
      cs.length = L.length ∧ tr = constructedEvents L cs ∧
        List.Forall₂ (fun el c => ∃ v, (lib.newPopover el v).1 = Except.ok c) L cs := by
  intro L
  induction L with
  | nil =>
    intro w w2 tr cs h
    simp [mapPopover] at h
    obtain ⟨h1, -, h3⟩ := h
    subst h1; subst h3
    simp [constructedEvents]
  | cons el rest ih =>
    intro w w2 tr cs h
    rcases hn : lib.newPopover el w with ⟨r, w1⟩
    cases r with
    | error e =>
      rw [mapPopover_cons_error lib el rest w w1 e hn] at h
      simp at h
    | ok c =>
      rcases hr : mapPopover lib rest w1 with ⟨tr1, w3, r1⟩
      cases r1 with
      | error e =>
        rw [mapPopover_cons_ok_error lib el rest w w1 w3 c tr1 e hn hr] at h
        simp at h
      | ok cs1 =>
        rw [mapPopover_cons_ok_ok lib el rest w w1 w3 c tr1 cs1 hn hr] at h
        simp at h
        obtain ⟨h1, -, h3⟩ := h
        obtain ⟨ihlen, ihtr, ihall⟩ := ih w1 w3 tr1 cs1 hr
        subst h1; subst h3
        refine ⟨by simp [ihlen], by simp [constructedEvents, ihtr], ?_⟩
        exact List.Forall₂.cons ⟨w, by rw [hn]⟩ ihall

/-- Traversing `xs ++ ys`: when the traversal of `xs` returns, the traversal
continues with `ys` in the world it left. -/
theorem mapPopover_append_ok (lib : Lib W El Ctrl Err) :
    ∀ (xs ys : List El) (w w2 : W) (tr : List (Event El Ctrl Err)) (cs : List Ctrl),
      mapPopover lib xs w = (tr, w2, Except.ok cs) →
      mapPopover lib (xs ++ ys) w =
        (match mapPopover lib ys w2 with
         | (tr2, w3, Except.error e) => (tr ++ tr2, w3, Except.error e)
         | (tr2, w3, Except.ok cs2) => (tr ++ tr2, w3, Except.ok (cs ++ cs2))) := by
  intro xs
  induction xs with
  | nil =>
    intro ys w w2 tr cs h
    simp [mapPopover] at h
    obtain ⟨h1, h2, h3⟩ := h
    subst h1; subst h2; subst h3
    rcases hy : mapPopover lib ys w with ⟨tr2, w3, r⟩
    cases r <;> simp [hy]
  | cons el rest ih =>
    intro ys w w2 tr cs h
    rcases hn : lib.newPopover el w with ⟨r, w1⟩
    cases r with
    | error e =>
      rw [mapPopover_cons_error lib el rest w w1 e hn] at h
      simp at h
    | ok c =>
      rcases hr : mapPopover lib rest w1 with ⟨tr1, w3, r1⟩
      cases r1 with
      | error e =>
        rw [mapPopover_cons_ok_error lib el rest w w1 w3 c tr1 e hn hr] at h
        simp at h
      | ok cs1 =>
        rw [mapPopover_cons_ok_ok lib el rest w w1 w3 c tr1 cs1 hn hr] at h
        simp at h
        obtain ⟨h1, h2, h3⟩ := h
        subst h1; subst h2; subst h3
        have hih := ih ys w1 w3 tr1 cs1 hr
        rcases hy : mapPopover lib ys w3 with ⟨tr2, w4, r⟩
        rw [hy] at hih
        cases r with
        | error e =>
          simp at hih
          simpa using mapPopover_cons_ok_error lib el (rest ++ ys) w w1 w4 c (tr1 ++ tr2) e hn hih
        | ok cs2 =>
          simp at hih
          simpa using
            mapPopover_cons_ok_ok lib el (rest ++ ys) w w1 w4 c (tr1 ++ tr2) (cs1 ++ cs2) hn hih

/-- When the constructor leaves the world as it found it, so does the traversal. -/
theorem mapPopover_world_of_pure (lib : Lib W El Ctrl Err)
    (hpure : ∀ el v, (lib.newPopover el v).2 = v) :
    ∀ (L : List El) (w : W), (mapPopover lib L w).2.1 = w := by
  intro L
  induction L with
  | nil => intro w; rfl
  | cons el rest ih =>
    intro w
    rcases hn : lib.newPopover el w with ⟨r, w1⟩
    have hw : w1 = w := by have := hpure el w; rw [hn] at this; exact this
    subst hw
    cases r with
    | error e => rw [mapPopover_cons_error lib el rest _ _ e hn]
    | ok c =>
      have hih := ih w1
      rcases hr : mapPopover lib rest w1 with ⟨tr1, w3, r1⟩
      rw [hr] at hih
      simp at hih
      subst hih
      cases r1 with
      | error e => rw [mapPopover_cons_ok_error lib el rest _ _ _ c tr1 e hn hr]
      | ok cs1 => rw [mapPopover_cons_ok_ok lib el rest _ _ _ c tr1 cs1 hn hr]

theorem constructedEvents_length (els : List El) (cs : List Ctrl) (h : cs.length = els.length) :
    (constructedEvents els cs : List (Event El Ctrl Err)).length = els.length := by
  simp [constructedEvents, h]

theorem constructedEvents_all (els : List El) (cs : List Ctrl) :
    ∀ ev ∈ (constructedEvents els cs : List (Event El Ctrl Err)),
      ev.isConstructed = true ∧ ev.isNewPopover = true ∧
        ev.isTocbotInit = false ∧ ev.isQuerySelectorAll = false := by
  induction els generalizing cs with
  | nil => simp [constructedEvents]
  | cons el rest ih =>
    cases cs with
    | nil => simp [constructedEvents]
    | cons c cs =>
      intro ev hev
      simp [constructedEvents] at hev
      rcases hev with hev | hev
      · subst hev; simp [Event.isConstructed, Event.isNewPopover, Event.isTocbotInit,
          Event.isQuerySelectorAll]
      · exact ih cs ev (by simpa [constructedEvents] using hev)

/-- The elements of the returning constructor calls are the elements given. -/
theorem constructedEvents_elements :
    ∀ (els : List El) (cs : List Ctrl), cs.length = els.length →
      (constructedEvents els cs : List (Event El Ctrl Err)).filterMap Event.popoverTriggerEl
        = els := by
  intro els
  induction els with
  | nil => intro cs _; simp [constructedEvents]
  | cons x xs ih =>
    intro cs hcs
    cases cs with
    | nil => simp at hcs
    | cons y ys =>
      have := ih ys (by simpa using hcs)
      simpa [constructedEvents, Event.popoverTriggerEl] using this

theorem filter_eq_self_of_all {α : Type} (p : α → Bool) (l : List α)
    (h : ∀ a ∈ l, p a = true) : l.filter p = l :=
  List.filter_eq_self.mpr h

theorem filter_eq_nil_of_none {α : Type} (p : α → Bool) (l : List α)
    (h : ∀ a ∈ l, p a = false) : l.filter p = [] := by
  induction l with
  | nil => rfl
  | cons a l ih =>
    have ha : p a = false := h a (List.mem_cons_self a l)
    simp [List.filter_cons, ha, ih (fun b hb => h b (List.mem_cons_of_mem a hb))]

theorem worldAfter_nil (lib : Lib W El Ctrl Err) (w : W) : worldAfter lib w [] = w := rfl

theorem worldAfter_cons (lib : Lib W El Ctrl Err) (w : W) (el : El) (rest : List El) :
    worldAfter lib w (el :: rest) = worldAfter lib (lib.newPopover el w).2 rest := rfl

/-- When each constructor call, made in the world its predecessors left,
returns the corresponding entry of `cs`, the traversal returns `cs`. -/
theorem mapPopover_of_returns (lib : Lib W El Ctrl Err) :
    ∀ (L : List El) (w : W) (cs : List Ctrl),
      cs.length = L.length →
      (∀ (i : Nat) (hi : i < L.length) (hc : i < cs.length),
        (lib.newPopover (L.get ⟨i, hi⟩) (worldAfter lib w (L.take i))).1
          = Except.ok (cs.get ⟨i, hc⟩)) →
      mapPopover lib L w = (constructedEvents L cs, worldAfter lib w L, Except.ok cs) := by
  intro L
  induction L with
  | nil =>
    intro w cs hlen _
    have hcs : cs = [] := List.length_eq_zero.mp (by simpa using hlen)
    subst hcs
    rfl
  | cons el rest ih =>
    intro w cs hlen hret
    cases cs with
    | nil => simp at hlen
    | cons c cs1 =>
      have h0 := hret 0 (by simp) (by simp)
      simp only [List.take_zero, worldAfter_nil, List.get_eq_getElem, List.getElem_cons_zero]
        at h0
      rcases hn : lib.newPopover el w with ⟨r, w1⟩
      rw [hn] at h0
      simp only at h0
      subst h0
      have hw1 : (lib.newPopover el w).2 = w1 := by rw [hn]
      have hrest := ih w1 cs1 (by simpa using hlen) (by
        intro i hi hc
        have := hret (i + 1) (by simpa using hi) (by simpa using hc)
        simpa [worldAfter_cons, hw1] using this)
      rw [mapPopover_cons_ok_ok lib el rest w w1 _ c _ cs1 hn hrest]
      simp [constructedEvents, worldAfter_cons, hw1]

/-- When the constructor returns `cs` on the first `k` elements and raises on
the next one, the traversal ends there with the thrown value. -/
theorem mapPopover_of_raise (lib : Lib W El Ctrl Err) :
    ∀ (L : List El) (w : W) (k : Nat) (hk : k < L.length) (cs : List Ctrl) (e : Err),
      cs.length = k →
      (∀ (i : Nat) (hi : i < L.length) (hc : i < cs.length),
        (lib.newPopover (L.get ⟨i, hi⟩) (worldAfter lib w (L.take i))).1
          = Except.ok (cs.get ⟨i, hc⟩)) →
      (lib.newPopover (L.get ⟨k, hk⟩) (worldAfter lib w (L.take k))).1 = Except.error e →
      mapPopover lib L w
        = (constructedEvents (L.take k) cs ++ [Event.newPopover (L.get ⟨k, hk⟩) (Except.error e)],
            worldAfter lib w (L.take (k + 1)), Except.error e) := by
  intro L
  induction L with
  | nil => intro w k hk; simp at hk
  | cons el rest ih =>
    intro w k hk cs e hlen hret hraise
    rcases hn : lib.newPopover el w with ⟨r, w1⟩
    have hw1 : (lib.newPopover el w).2 = w1 := by rw [hn]
    cases k with
    | zero =>
      have hcs : cs = [] := List.length_eq_zero.mp hlen
      subst hcs
      simp only [List.take_zero, worldAfter_nil, List.get_eq_getElem, List.getElem_cons_zero,
        hn] at hraise
      subst hraise
      rw [mapPopover_cons_error lib el rest w w1 e hn]
      simp [constructedEvents, worldAfter_cons, worldAfter_nil, hw1]
    | succ k =>
      cases cs with
      | nil => simp at hlen
      | cons c cs1 =>
        have h0 := hret 0 (by simp) (by simp)
        simp only [List.take_zero, worldAfter_nil, List.get_eq_getElem, List.getElem_cons_zero,
          hn] at h0
        subst h0
        have hk1 : k < rest.length := by simpa using hk
        have hrest := ih w1 k hk1 cs1 e (by simpa using hlen) (by
          intro i hi hc
          have := hret (i + 1) (by simpa using hi) (by simpa using hc)
          simpa [worldAfter_cons, hw1] using this) (by
          simpa [worldAfter_cons, hw1] using hraise)
        rw [mapPopover_cons_ok_error lib el rest w w1 _ c _ e hn hrest]
        simp [constructedEvents, worldAfter_cons, hw1]

/-- A traversal that returns: every constructor call, made in the world its
predecessors left, returned the corresponding entry of the result. -/
theorem mapPopover_ok_run (lib : Lib W El Ctrl Err) :
    ∀ (L : List El) (w w2 : W) (tr : List (Event El Ctrl Err)) (cs : List Ctrl),
      mapPopover lib L w = (tr, w2, Except.ok cs) →
      cs.length = L.length ∧
      ∀ (i : Nat) (hi : i < L.length) (hc : i < cs.length),
        (lib.newPopover (L.get ⟨i, hi⟩) (worldAfter lib w (L.take i))).1
          = Except.ok (cs.get ⟨i, hc⟩) := by
  intro L
  induction L with
  | nil =>
    intro w w2 tr cs h
    simp [mapPopover] at h
    obtain ⟨-, -, h3⟩ := h
    subst h3
    exact ⟨rfl, fun i hi => by simp at hi⟩
  | cons el rest ih =>
    intro w w2 tr cs h
    rcases hn : lib.newPopover el w with ⟨r, w1⟩
    have hw1 : (lib.newPopover el w).2 = w1 := by rw [hn]
    cases r with
    | error e =>
      rw [mapPopover_cons_error lib el rest w w1 e hn] at h
      simp at h
    | ok c =>
      rcases hr : mapPopover lib rest w1 with ⟨tr1, w3, r1⟩
      cases r1 with
      | error e =>
        rw [mapPopover_cons_ok_error lib el rest w w1 w3 c tr1 e hn hr] at h
        simp at h
      | ok cs1 =>
        rw [mapPopover_cons_ok_ok lib el rest w w1 w3 c tr1 cs1 hn hr] at h
        simp at h
        obtain ⟨-, -, h3⟩ := h
        subst h3
        obtain ⟨ihlen, ihret⟩ := ih w1 w3 tr1 cs1 hr
        refine ⟨by simp [ihlen], ?_⟩
        intro i hi hc
        cases i with
        | zero => simp [worldAfter_nil, hn]
        | succ i =>
          have := ihret i (by simpa using hi) (by simpa using hc)
          simpa [worldAfter_cons, hw1] using this

/-- A traversal that raises: the constructor returned on the first `k`
elements, each call made in the world its predecessors left, and raised on
the next one. -/
theorem mapPopover_error_run (lib : Lib W El Ctrl Err) :
    ∀ (L : List El) (w w2 : W) (tr : List (Event El Ctrl Err)) (e : Err),
      mapPopover lib L w = (tr, w2, Except.error e) →
      ∃ (k : Nat) (hk : k < L.length) (cs : List Ctrl),
        cs.length = k ∧
        (∀ (i : Nat) (hi : i < L.length) (hc : i < cs.length),
          (lib.newPopover (L.get ⟨i, hi⟩) (worldAfter lib w (L.take i))).1
            = Except.ok (cs.get ⟨i, hc⟩)) ∧
        (lib.newPopover (L.get ⟨k, hk⟩) (worldAfter lib w (L.take k))).1 = Except.error e := by
  intro L
  induction L with
  | nil =>
    intro w w2 tr e h
    simp [mapPopover] at h
  | cons el rest ih =>
    intro w w2 tr e h
    rcases hn : lib.newPopover el w with ⟨r, w1⟩
    have hw1 : (lib.newPopover el w).2 = w1 := by rw [hn]
    cases r with
    | error e1 =>
      rw [mapPopover_cons_error lib el rest w w1 e1 hn] at h
      simp at h
      obtain ⟨-, -, h3⟩ := h
      subst h3
      refine ⟨0, by simp, [], rfl, fun i hi hc => by simp at hc, ?_⟩
      simp [worldAfter_nil, hn]
    | ok c =>
      rcases hr : mapPopover lib rest w1 with ⟨tr1, w3, r1⟩
      cases r1 with
      | ok cs1 =>
        rw [mapPopover_cons_ok_ok lib el rest w w1 w3 c tr1 cs1 hn hr] at h
        simp at h
      | error e1 =>
        rw [mapPopover_cons_ok_error lib el rest w w1 w3 c tr1 e1 hn hr] at h
        simp at h
        obtain ⟨-, -, h3⟩ := h
        subst h3
        obtain ⟨k, hk, cs1, hlen, hret, hraise⟩ := ih w1 w3 tr1 e1 hr
        refine ⟨k + 1, by simpa using hk, c :: cs1, by simp [hlen], ?_, ?_⟩
        · intro i hi hc
          cases i with
          | zero => simp [worldAfter_nil, hn]
          | succ i =>
            have := hret i (by simpa using hi) (by simpa using hc)
            simpa [worldAfter_cons, hw1] using this
        · simpa [worldAfter_cons, hw1] using hraise

/-! ## The script, run by run -/

theorem popoverActivation_of_returns (lib : Lib W El Ctrl Err) (w : W) (L : List El)
    (cs : List Ctrl) (hL : lib.querySelectorAll popoverSelector w = L)
    (hlen : cs.length = L.length)
    (hret : ∀ (i : Nat) (hi : i < L.length) (hc : i < cs.length),
      (lib.newPopover (L.get ⟨i, hi⟩) (worldAfter lib w (L.take i))).1
        = Except.ok (cs.get ⟨i, hc⟩)) :
    popoverActivation lib w =
      { world := worldAfter lib w L
        trace := Event.querySelectorAll popoverSelector L :: constructedEvents L cs
        popoverTriggerList := some L
        popoverList := some cs
        completion := Except.ok () } := by
  simp [popoverActivation, hL, mapPopover_of_returns lib L w cs hlen hret]

theorem popoverActivation_of_raise (lib : Lib W El Ctrl Err) (w : W) (L : List El)
    (k : Nat) (hk : k < L.length) (cs : List Ctrl) (e : Err)
    (hL : lib.querySelectorAll popoverSelector w = L)
    (hlen : cs.length = k)
    (hret : ∀ (i : Nat) (hi : i < L.length) (hc : i < cs.length),
      (lib.newPopover (L.get ⟨i, hi⟩) (worldAfter lib w (L.take i))).1
        = Except.ok (cs.get ⟨i, hc⟩))
    (hraise : (lib.newPopover (L.get ⟨k, hk⟩) (worldAfter lib w (L.take k))).1
      = Except.error e) :
    popoverActivation lib w =
      { world := worldAfter lib w (L.take (k + 1))
        trace := Event.querySelectorAll popoverSelector L ::
          (constructedEvents (L.take k) cs
            ++ [Event.newPopover (L.get ⟨k, hk⟩) (Except.error e)])
        popoverTriggerList := some L
        popoverList := none
        completion := Except.error e } := by
  simp [popoverActivation, hL, mapPopover_of_raise lib L w k hk cs e hlen hret hraise]

theorem script_of_init_raises (lib : Lib W El Ctrl Err) (w w1 : W) (e : Err)
    (h : lib.tocbotInit tocbotOptions w = (Except.error e, w1)) :
    script lib w =
      { world := w1
        trace := [Event.tocbotInit tocbotOptions (Except.error e)]
        popoverTriggerList := none
        popoverList := none
        completion := Except.error e } := by
  simp [script, h]

theorem script_of_init_returns (lib : Lib W El Ctrl Err) (w w1 : W) (u : Unit)
    (h : lib.tocbotInit tocbotOptions w = (Except.ok u, w1)) :
    script lib w =
      { world := (popoverActivation lib w1).world
        trace := Event.tocbotInit tocbotOptions (Except.ok u) :: (popoverActivation lib w1).trace
        popoverTriggerList := (popoverActivation lib w1).popoverTriggerList
        popoverList := (popoverActivation lib w1).popoverList
        completion := (popoverActivation lib w1).completion } := by
  simp [script, h]

/-- Every run of the popover activation is of one of two kinds: every
constructor call returned, or the constructor returned on the first `k`
elements and raised on the next. -/
theorem popoverActivation_cases (lib : Lib W El Ctrl Err) (w : W) :
    (∃ cs : List Ctrl,
      cs.length = (lib.querySelectorAll popoverSelector w).length ∧
      (popoverActivation lib w).popoverList = some cs ∧
      (popoverActivation lib w).completion = Except.ok () ∧
      ∀ (i : Nat) (hi : i < (lib.querySelectorAll popoverSelector w).length) (hc : i < cs.length),
        (lib.newPopover ((lib.querySelectorAll popoverSelector w).get ⟨i, hi⟩)
          (worldAfter lib w ((lib.querySelectorAll popoverSelector w).take i))).1
          = Except.ok (cs.get ⟨i, hc⟩)) ∨
    (∃ (k : Nat) (hk : k < (lib.querySelectorAll popoverSelector w).length)
        (cs : List Ctrl) (e : Err),
      cs.length = k ∧
      (popoverActivation lib w).popoverList = none ∧
      (popoverActivation lib w).completion = Except.error e ∧
      (∀ (i : Nat) (hi : i < (lib.querySelectorAll popoverSelector w).length)
          (hc : i < cs.length),
        (lib.newPopover ((lib.querySelectorAll popoverSelector w).get ⟨i, hi⟩)
          (worldAfter lib w ((lib.querySelectorAll popoverSelector w).take i))).1
          = Except.ok (cs.get ⟨i, hc⟩)) ∧
      (lib.newPopover ((lib.querySelectorAll popoverSelector w).get ⟨k, hk⟩)
        (worldAfter lib w ((lib.querySelectorAll popoverSelector w).take k))).1
        = Except.error e) := by
  rcases hr : mapPopover lib (lib.querySelectorAll popoverSelector w) w with ⟨tr, w2, res⟩
  cases res with
  | ok cs =>
    obtain ⟨hlen, hret⟩ := mapPopover_ok_run lib _ w w2 tr cs hr
    exact Or.inl ⟨cs, hlen, by simp [popoverActivation, hr], by simp [popoverActivation, hr],
      hret⟩
  | error e =>
    obtain ⟨k, hk, cs, hlen, hret, hraise⟩ := mapPopover_error_run lib _ w w2 tr e hr
    exact Or.inr ⟨k, hk, cs, e, hlen, by simp [popoverActivation, hr],
      by simp [popoverActivation, hr], hret, hraise⟩

theorem script_of_returns (lib : Lib W El Ctrl Err) (w w1 : W) (u : Unit) (L : List El)
    (cs : List Ctrl)
    (h : lib.tocbotInit tocbotOptions w = (Except.ok u, w1))
    (hL : lib.querySelectorAll popoverSelector w1 = L)
    (hlen : cs.length = L.length)
    (hret : ∀ (i : Nat) (hi : i < L.length) (hc : i < cs.length),
      (lib.newPopover (L.get ⟨i, hi⟩) (worldAfter lib w1 (L.take i))).1
        = Except.ok (cs.get ⟨i, hc⟩)) :
    script lib w =
      { world := worldAfter lib w1 L
        trace := Event.tocbotInit tocbotOptions (Except.ok u) ::
          Event.querySelectorAll popoverSelector L :: constructedEvents L cs
        popoverTriggerList := some L
        popoverList := some cs
        completion := Except.ok () } := by
  rw [script_of_init_returns lib w w1 u h,
    popoverActivation_of_returns lib w1 L cs hL hlen hret]

theorem script_of_raise (lib : Lib W El Ctrl Err) (w w1 : W) (u : Unit) (L : List El)
    (k : Nat) (hk : k < L.length) (cs : List Ctrl) (e : Err)
    (h : lib.tocbotInit tocbotOptions w = (Except.ok u, w1))
    (hL : lib.querySelectorAll popoverSelector w1 = L)
    (hlen : cs.length = k)
    (hret : ∀ (i : Nat) (hi : i < L.length) (hc : i < cs.length),
      (lib.newPopover (L.get ⟨i, hi⟩) (worldAfter lib w1 (L.take i))).1
        = Except.ok (cs.get ⟨i, hc⟩))
    (hraise : (lib.newPopover (L.get ⟨k, hk⟩) (worldAfter lib w1 (L.take k))).1
      = Except.error e) :
    script lib w =
      { world := worldAfter lib w1 (L.take (k + 1))
        trace := Event.tocbotInit tocbotOptions (Except.ok u) ::
          Event.querySelectorAll popoverSelector L ::
          (constructedEvents (L.take k) cs
            ++ [Event.newPopover (L.get ⟨k, hk⟩) (Except.error e)])
        popoverTriggerList := some L
        popoverList := none
        completion := Except.error e } := by
  rw [script_of_init_returns lib w w1 u h,
    popoverActivation_of_raise lib w1 L k hk cs e hL hlen hret hraise]

/-- The three kinds of run: the initializer raised; it returned and every
constructor call returned; it returned and the constructor raised after
returning on the first `k` elements. -/
theorem script_cases (lib : Lib W El Ctrl Err) (w : W) :
    (∃ (e : Err) (w1 : W), lib.tocbotInit tocbotOptions w = (Except.error e, w1)) ∨
    (∃ (u : Unit) (w1 : W) (cs : List Ctrl),
      lib.tocbotInit tocbotOptions w = (Except.ok u, w1) ∧
      cs.length = (lib.querySelectorAll popoverSelector w1).length ∧
      ∀ (i : Nat) (hi : i < (lib.querySelectorAll popoverSelector w1).length)
          (hc : i < cs.length),
        (lib.newPopover ((lib.querySelectorAll popoverSelector w1).get ⟨i, hi⟩)
          (worldAfter lib w1 ((lib.querySelectorAll popoverSelector w1).take i))).1
          = Except.ok (cs.get ⟨i, hc⟩)) ∨
    (∃ (u : Unit) (w1 : W) (k : Nat)
        (hk : k < (lib.querySelectorAll popoverSelector w1).length)
        (cs : List Ctrl) (e : Err),
      lib.tocbotInit tocbotOptions w = (Except.ok u, w1) ∧
      cs.length = k ∧
      (∀ (i : Nat) (hi : i < (lib.querySelectorAll popoverSelector w1).length)
          (hc : i < cs.length),
        (lib.newPopover ((lib.querySelectorAll popoverSelector w1).get ⟨i, hi⟩)
          (worldAfter lib w1 ((lib.querySelectorAll popoverSelector w1).take i))).1
          = Except.ok (cs.get ⟨i, hc⟩)) ∧
      (lib.newPopover ((lib.querySelectorAll popoverSelector w1).get ⟨k, hk⟩)
        (worldAfter lib w1 ((lib.querySelectorAll popoverSelector w1).take k))).1
        = Except.error e) := by
  rcases h : lib.tocbotInit tocbotOptions w with ⟨r, w1⟩
  cases r with
  | error e => exact Or.inl ⟨e, w1, rfl⟩
  | ok u =>
    rcases popoverActivation_cases lib w1 with ⟨cs, hlen, -, -, hret⟩ |
      ⟨k, hk, cs, e, hlen, -, -, hret, hraise⟩
    · exact Or.inr (Or.inl ⟨u, w1, cs, rfl, hlen, hret⟩)
    · exact Or.inr (Or.inr ⟨u, w1, k, hk, cs, e, rfl, hlen, hret, hraise⟩)

/-- Counting the calls of a run in which the constructor returned `cs` on the
first elements `els` and then possibly made one more call `last`. -/
theorem trace_counts (options : JsObject) (r : Except Err Unit) (selector : String)
    (L els : List El) (cs : List Ctrl) (last : List (Event El Ctrl Err))
    (hlen : cs.length = els.length) (hlast : ∀ ev ∈ last, ev.isNewPopover = true) :
    ((Event.tocbotInit options r :: Event.querySelectorAll selector L ::
        (constructedEvents els cs ++ last)).filter Event.isTocbotInit).length = 1 ∧
    ((Event.tocbotInit options r :: Event.querySelectorAll selector L ::
        (constructedEvents els cs ++ last)).filter Event.isQuerySelectorAll).length = 1 ∧
    ((Event.tocbotInit options r :: Event.querySelectorAll selector L ::
        (constructedEvents els cs ++ last)).filter Event.isNewPopover).length
      = els.length + last.length ∧
    (Event.tocbotInit options r :: Event.querySelectorAll selector L ::
        (constructedEvents els cs ++ last)).filterMap Event.popoverTriggerEl
      = els ++ last.filterMap Event.popoverTriggerEl := by
  have hev := @constructedEvents_all El Ctrl Err els cs
  have hlast1 : ∀ ev ∈ last, ev.isTocbotInit = false := by
    intro ev h
    have := hlast ev h
    cases ev <;> simp_all [Event.isNewPopover, Event.isTocbotInit]
  have hlast2 : ∀ ev ∈ last, ev.isQuerySelectorAll = false := by
    intro ev h
    have := hlast ev h
    cases ev <;> simp_all [Event.isNewPopover, Event.isQuerySelectorAll]
  refine ⟨?_, ?_, ?_, ?_⟩
  · simp [List.filter_cons, Event.isTocbotInit,
      filter_eq_nil_of_none _ _ (fun ev h => (hev ev h).2.2.1),
      filter_eq_nil_of_none _ _ hlast1]
  · simp [List.filter_cons, Event.isQuerySelectorAll,
      filter_eq_nil_of_none _ _ (fun ev h => (hev ev h).2.2.2),
      filter_eq_nil_of_none _ _ hlast2]
  · simp [List.filter_cons, Event.isNewPopover,
      filter_eq_self_of_all _ _ (fun ev h => (hev ev h).2.1),
      filter_eq_self_of_all _ _ hlast, constructedEvents_length _ _ hlen]
  · simp [List.filterMap_cons, Event.popoverTriggerEl, List.filterMap_append,
      constructedEvents_elements _ _ hlen]

end Lemmas

/-! ## The claims -/

section Claims

variable {W El Ctrl Err : Type}

/-- C1 fails as stated: on a page whose query returns the three elements
a, bad, c and a constructor that raises on bad, the popover activation does not
build one controller per element: one controller is constructed, the element c
is never visited and `popoverList` is left unbound. -/
theorem C1_raising_constructor_leaves_popoverList_unbound :
    ctorRaisesLib.querySelectorAll popoverSelector ⟨["a", "bad", "c"], 0⟩ = ["a", "bad", "c"] ∧
    (popoverActivation ctorRaisesLib ⟨["a", "bad", "c"], 0⟩).popoverList = none ∧
    ((popoverActivation ctorRaisesLib ⟨["a", "bad", "c"], 0⟩).trace.filter
      Event.isConstructed).length = 1 ∧
    (popoverActivation ctorRaisesLib ⟨["a", "bad", "c"], 0⟩).trace.filterMap
      Event.popoverTriggerEl = ["a", "bad"] ∧
    ¬ ∃ popoverList : List String,
      (popoverActivation ctorRaisesLib ⟨["a", "bad", "c"], 0⟩).popoverList = some popoverList ∧
      popoverList.length = 3 := by
  refine ⟨rfl, rfl, rfl, rfl, ?_⟩
  rintro ⟨cs, h, -⟩
  have hnone : (popoverActivation ctorRaisesLib ⟨["a", "bad", "c"], 0⟩).popoverList = none := rfl
  rw [hnone] at h
  exact Option.noConfusion h

/-- C1 as amended: let `L` be the list returned by the query for the popover
selector.  If every constructor call of the run returns, that is, for each `i`
the call on the i-th element of `L`, made in the world left by the calls on
the elements before it, returns `cs[i]`, then the popover activation completes
with `popoverList` bound to exactly `cs` (same length as `L`, i-th controller
the one returned for the i-th element), its constructor calls are exactly one
per element of `L` in the order of `L`, each with that element as its only
argument, and the world is the one those calls left.  Conversely, whenever
`popoverList` is bound, it is bound to such a list. -/
theorem C1_popoverList_one_controller_per_element
    (lib : Lib W El Ctrl Err) (w : W) (L : List El)
    (hL : lib.querySelectorAll popoverSelector w = L) :
    (∀ cs : List Ctrl,
      cs.length = L.length →
      (∀ (i : Nat) (hi : i < L.length) (hc : i < cs.length),
        (lib.newPopover (L.get ⟨i, hi⟩) (worldAfter lib w (L.take i))).1
          = Except.ok (cs.get ⟨i, hc⟩)) →
      popoverActivation lib w =
        { world := worldAfter lib w L
          trace := Event.querySelectorAll popoverSelector L :: constructedEvents L cs
          popoverTriggerList := some L
          popoverList := some cs
          completion := Except.ok () } ∧
      (popoverActivation lib w).trace.filter Event.isNewPopover = constructedEvents L cs ∧
      (popoverActivation lib w).trace.filterMap Event.popoverTriggerEl = L ∧
      (∀ (i : Nat) (hi : i < L.length) (hc : i < cs.length),
        ((popoverActivation lib w).trace.filter Event.isNewPopover)[i]?
          = some (Event.newPopover (L.get ⟨i, hi⟩) (Except.ok (cs.get ⟨i, hc⟩))))) ∧
    (∀ cs : List Ctrl,
      (popoverActivation lib w).popoverList = some cs →
      (popoverActivation lib w).completion = Except.ok () ∧
      cs.length = L.length ∧
      ∀ (i : Nat) (hi : i < L.length) (hc : i < cs.length),
        (lib.newPopover (L.get ⟨i, hi⟩) (worldAfter lib w (L.take i))).1
          = Except.ok (cs.get ⟨i, hc⟩)) := by
  constructor
  · intro cs hlen hret
    have hact := popoverActivation_of_returns lib w L cs hL hlen hret
    have hfilter : (Event.querySelectorAll popoverSelector L ::
          (constructedEvents L cs : List (Event El Ctrl Err))).filter Event.isNewPopover
        = constructedEvents L cs := by
      rw [List.filter_cons]
      simp only [Event.isNewPopover, Bool.false_eq_true, if_false]
      exact filter_eq_self_of_all _ _ (fun ev hev => (constructedEvents_all L cs ev hev).2.1)
    refine ⟨hact, ?_, ?_, ?_⟩
    · rw [hact]; exact hfilter
    · rw [hact]
      simp only [List.filterMap_cons, Event.popoverTriggerEl]
      exact constructedEvents_elements L cs hlen
    · intro i hi hc
      rw [hact]
      simp only [hfilter]
      simp [constructedEvents, List.getElem?_zipWith, List.getElem?_eq_getElem hi,
        List.getElem?_eq_getElem hc]
  · intro cs hcs
    subst hL
    rcases popoverActivation_cases lib w with ⟨cs1, hlen, hpl, hcompl, hret⟩ |
      ⟨k, hk, cs1, e, -, hpl, -, -, -⟩
    · rw [hpl] at hcs
      simp at hcs
      subst hcs
      exact ⟨hcompl, hlen, hret⟩
    · rw [hpl] at hcs
      simp at hcs

/-- C1 as amended, on a page with two popover triggers neither of which is the
one the constructor would raise on: both hypotheses hold and `popoverList` is
bound to the two controllers. -/
theorem C1_popoverList_witness :
    popoverActivation ctorRaisesLib ⟨["a", "b"], 0⟩ =
      { world := ⟨["a", "b"], 2⟩
        trace := [Event.querySelectorAll popoverSelector ["a", "b"],
                  Event.newPopover "a" (Except.ok "Popover(a)"),
                  Event.newPopover "b" (Except.ok "Popover(b)")]
        popoverTriggerList := some ["a", "b"]
        popoverList := some ["Popover(a)", "Popover(b)"]
        completion := Except.ok () } :=
  ((C1_popoverList_one_controller_per_element ctorRaisesLib ⟨["a", "b"], 0⟩ ["a", "b"] rfl).1
    ["Popover(a)", "Popover(b)"] rfl
    (fun i hi _ =>
      match i, hi with
      | 0, _ => rfl
      | 1, _ => rfl)).1

/-- C2: when the query for the popover selector matches no element, the popover
activation completes normally, makes no constructor call (its only call is the
query), binds `popoverList` to the empty list and leaves the world as it was,
whatever the constructor would do if called.  The same holds of the whole
script whenever `tocbot.init` has returned into such a world. -/
theorem C2_zero_matches_is_noop
    (lib : Lib W El Ctrl Err) (w : W)
    (h0 : lib.querySelectorAll popoverSelector w = []) :
    (popoverActivation lib w).completion = Except.ok () ∧
    (popoverActivation lib w).popoverList = some [] ∧
    (popoverActivation lib w).popoverTriggerList = some [] ∧
    (popoverActivation lib w).trace = [Event.querySelectorAll popoverSelector []] ∧
    ((popoverActivation lib w).trace.filter Event.isNewPopover).length = 0 ∧
    (popoverActivation lib w).world = w ∧
    (∀ (w0 : W) (u : Unit), lib.tocbotInit tocbotOptions w0 = (Except.ok u, w) →
      (script lib w0).completion = Except.ok () ∧
      (script lib w0).popoverList = some [] ∧
      ((script lib w0).trace.filter Event.isNewPopover).length = 0) := by
  refine ⟨?_, ?_, ?_, ?_, ?_, ?_, ?_⟩ <;>
    first
    | (intro w0 u hinit
       simp [script, hinit, popoverActivation, h0, mapPopover, Event.isNewPopover])
    | simp [popoverActivation, h0, mapPopover, Event.isNewPopover]

/-- C2 applied to a page without popover triggers, with a constructor that
would raise on some elements. -/
theorem C2_zero_matches_witness :
    (popoverActivation ctorRaisesLib ⟨[], 7⟩).completion = Except.ok () ∧
    (popoverActivation ctorRaisesLib ⟨[], 7⟩).popoverList = some [] :=
  let h := C2_zero_matches_is_noop ctorRaisesLib ⟨[], 7⟩ rfl
  ⟨h.1, h.2.1⟩

/-- C3: the first call of the script is `tocbot.init`, made in the initial
world with an options object that has exactly six properties: tocSelector
'.js-toc', contentSelector '.js-toc-content', headingSelector 'h2, h3',
hasInnerContainers true, positionFixedSelector '#usersuite-sidebar-nav' and
extraLinkClasses 'text-decoration-none'; any other key is absent. -/
theorem C3_tocbot_options_exactly_six (lib : Lib W El Ctrl Err) (w : W) :
    ∃ options : JsObject,
      (script lib w).trace.head?
        = some (Event.tocbotInit options (lib.tocbotInit options w).1) ∧
      options.length = 6 ∧
      options.map Prod.fst
        = ["tocSelector", "contentSelector", "headingSelector", "hasInnerContainers",
           "positionFixedSelector", "extraLinkClasses"] ∧
      options.lookup "tocSelector" = some (JsValue.str ".js-toc") ∧
      options.lookup "contentSelector" = some (JsValue.str ".js-toc-content") ∧
      options.lookup "headingSelector" = some (JsValue.str "h2, h3") ∧
      options.lookup "hasInnerContainers" = some (JsValue.bool true) ∧
      options.lookup "positionFixedSelector" = some (JsValue.str "#usersuite-sidebar-nav") ∧
      options.lookup "extraLinkClasses" = some (JsValue.str "text-decoration-none") ∧
      (∀ key : String,
        key ∉ ["tocSelector", "contentSelector", "headingSelector", "hasInnerContainers",
               "positionFixedSelector", "extraLinkClasses"] →
        options.lookup key = none) := by
  refine ⟨tocbotOptions, ?_, by decide, by decide, by decide, by decide, by decide, by decide,
    by decide, by decide, ?_⟩
  · rcases h : lib.tocbotInit tocbotOptions w with ⟨r, w1⟩
    cases r <;> simp [script, h]
  · intro key hkey
    simp only [List.mem_cons, List.mem_singleton, List.not_mem_nil, or_false, not_or] at hkey
    obtain ⟨h1, h2, h3, h4, h5, h6⟩ := hkey
    have e1 : (key == "tocSelector") = false := by simpa using h1
    have e2 : (key == "contentSelector") = false := by simpa using h2
    have e3 : (key == "headingSelector") = false := by simpa using h3
    have e4 : (key == "hasInnerContainers") = false := by simpa using h4
    have e5 : (key == "positionFixedSelector") = false := by simpa using h5
    have e6 : (key == "extraLinkClasses") = false := by simpa using h6
    simp [tocbotOptions, List.lookup, e1, e2, e3, e4, e5, e6]

/-- C4 fails as stated: when `tocbot.init` raises the document is never queried
and no constructor call is made, and when the constructor raises on the second
of three matched elements it is called twice, never on the third. -/
theorem C4_raise_cuts_the_sequence_short :
    (((script tocRaisesLib ⟨["a", "b"], 0⟩).trace.filter Event.isQuerySelectorAll).length = 0 ∧
      ¬ ((script tocRaisesLib ⟨["a", "b"], 0⟩).trace.filter
          Event.isQuerySelectorAll).length = 1) ∧
    ((script ctorRaisesLib ⟨["a", "bad", "c"], 0⟩).popoverTriggerList
        = some ["a", "bad", "c"] ∧
      (script ctorRaisesLib ⟨["a", "bad", "c"], 0⟩).trace.filterMap Event.popoverTriggerEl
        = ["a", "bad"] ∧
      ¬ ((script ctorRaisesLib ⟨["a", "bad", "c"], 0⟩).trace.filter
          Event.isNewPopover).length = 3) := by
  refine ⟨⟨rfl, ?_⟩, rfl, rfl, ?_⟩
  · have h : ((script tocRaisesLib ⟨["a", "b"], 0⟩).trace.filter
        Event.isQuerySelectorAll).length = 0 := rfl
    rw [h]
    decide
  · have h : ((script ctorRaisesLib ⟨["a", "bad", "c"], 0⟩).trace.filter
        Event.isNewPopover).length = 2 := rfl
    rw [h]
    decide

/-- C4 as amended: the script is one fixed sequence of library calls, cut short
only by a call that raises.  In every run the first call is `tocbot.init`,
made once and never again.  If it raises, nothing else is called.  If it
returns, the document is queried exactly once, in the world the initializer
left, and then the constructor is called on the matched elements in order,
once each: on all of them when every call returns, and on the first `k + 1`
when the call on element `k` is the first to raise.  Every run is of one of
these three kinds, and in each the whole resulting state is determined. -/
theorem C4_one_shot_call_sequence (lib : Lib W El Ctrl Err) (w : W) :
    (∃ rest,
      (script lib w).trace
        = Event.tocbotInit tocbotOptions (lib.tocbotInit tocbotOptions w).1 :: rest ∧
      (∀ ev ∈ rest, ev.isTocbotInit = false) ∧
      ((script lib w).trace.filter Event.isTocbotInit).length = 1) ∧
    (∀ (e : Err) (w1 : W),
      lib.tocbotInit tocbotOptions w = (Except.error e, w1) →
      script lib w =
        { world := w1
          trace := [Event.tocbotInit tocbotOptions (Except.error e)]
          popoverTriggerList := none
          popoverList := none
          completion := Except.error e }) ∧
    (∀ (u : Unit) (w1 : W) (L : List El) (cs : List Ctrl),
      lib.tocbotInit tocbotOptions w = (Except.ok u, w1) →
      lib.querySelectorAll popoverSelector w1 = L →
      cs.length = L.length →
      (∀ (i : Nat) (hi : i < L.length) (hc : i < cs.length),
        (lib.newPopover (L.get ⟨i, hi⟩) (worldAfter lib w1 (L.take i))).1
          = Except.ok (cs.get ⟨i, hc⟩)) →
      script lib w =
        { world := worldAfter lib w1 L
          trace := Event.tocbotInit tocbotOptions (Except.ok u) ::
            Event.querySelectorAll popoverSelector L :: constructedEvents L cs
          popoverTriggerList := some L
          popoverList := some cs
          completion := Except.ok () } ∧
      ((script lib w).trace.filter Event.isTocbotInit).length = 1 ∧
      ((script lib w).trace.filter Event.isQuerySelectorAll).length = 1 ∧
      ((script lib w).trace.filter Event.isNewPopover).length = L.length ∧
      (script lib w).trace.filterMap Event.popoverTriggerEl = L) ∧
    (∀ (u : Unit) (w1 : W) (L : List El) (k : Nat) (hk : k < L.length) (cs : List Ctrl)
        (e : Err),
      lib.tocbotInit tocbotOptions w = (Except.ok u, w1) →
      lib.querySelectorAll popoverSelector w1 = L →
      cs.length = k →
      (∀ (i : Nat) (hi : i < L.length) (hc : i < cs.length),
        (lib.newPopover (L.get ⟨i, hi⟩) (worldAfter lib w1 (L.take i))).1
          = Except.ok (cs.get ⟨i, hc⟩)) →
      (lib.newPopover (L.get ⟨k, hk⟩) (worldAfter lib w1 (L.take k))).1 = Except.error e →
      script lib w =
        { world := worldAfter lib w1 (L.take (k + 1))
          trace := Event.tocbotInit tocbotOptions (Except.ok u) ::
            Event.querySelectorAll popoverSelector L ::
            (constructedEvents (L.take k) cs
              ++ [Event.newPopover (L.get ⟨k, hk⟩) (Except.error e)])
          popoverTriggerList := some L
          popoverList := none
          completion := Except.error e } ∧
      ((script lib w).trace.filter Event.isTocbotInit).length = 1 ∧
      ((script lib w).trace.filter Event.isQuerySelectorAll).length = 1 ∧
      ((script lib w).trace.filter Event.isNewPopover).length = k + 1 ∧
      (script lib w).trace.filterMap Event.popoverTriggerEl = L.take (k + 1)) ∧
    ((∃ (e : Err) (w1 : W), lib.tocbotInit tocbotOptions w = (Except.error e, w1)) ∨
      (∃ (u : Unit) (w1 : W) (cs : List Ctrl),
        lib.tocbotInit tocbotOptions w = (Except.ok u, w1) ∧
        cs.length = (lib.querySelectorAll popoverSelector w1).length ∧
        ∀ (i : Nat) (hi : i < (lib.querySelectorAll popoverSelector w1).length)
            (hc : i < cs.length),
          (lib.newPopover ((lib.querySelectorAll popoverSelector w1).get ⟨i, hi⟩)
            (worldAfter lib w1 ((lib.querySelectorAll popoverSelector w1).take i))).1
            = Except.ok (cs.get ⟨i, hc⟩)) ∨
      (∃ (u : Unit) (w1 : W) (k : Nat)
          (hk : k < (lib.querySelectorAll popoverSelector w1).length)
          (cs : List Ctrl) (e : Err),
        lib.tocbotInit tocbotOptions w = (Except.ok u, w1) ∧
        cs.length = k ∧
        (∀ (i : Nat) (hi : i < (lib.querySelectorAll popoverSelector w1).length)
            (hc : i < cs.length),
          (lib.newPopover ((lib.querySelectorAll popoverSelector w1).get ⟨i, hi⟩)
            (worldAfter lib w1 ((lib.querySelectorAll popoverSelector w1).take i))).1
            = Except.ok (cs.get ⟨i, hc⟩)) ∧
        (lib.newPopover ((lib.querySelectorAll popoverSelector w1).get ⟨k, hk⟩)
          (worldAfter lib w1 ((lib.querySelectorAll popoverSelector w1).take k))).1
          = Except.error e)) := by
  refine ⟨?_, ?_, ?_, ?_, script_cases lib w⟩
  · rcases script_cases lib w with ⟨e, w1, h⟩ | ⟨u, w1, cs, h, hlen, hret⟩ |
      ⟨u, w1, k, hk, cs, e, h, hlen, hret, hraise⟩
    · rw [script_of_init_raises lib w w1 e h, h]
      exact ⟨[], rfl, by simp, by simp [Event.isTocbotInit]⟩
    · rw [script_of_returns lib w w1 u _ cs h rfl hlen hret, h]
      have hc := trace_counts tocbotOptions (Except.ok u) popoverSelector
        (lib.querySelectorAll popoverSelector w1) (lib.querySelectorAll popoverSelector w1)
        cs ([] : List (Event El Ctrl Err)) hlen (by simp)
      simp only [List.append_nil] at hc
      refine ⟨_, rfl, ?_, hc.1⟩
      intro ev hev
      simp only [List.mem_cons] at hev
      rcases hev with hev | hev
      · subst hev; rfl
      · exact (constructedEvents_all _ _ ev hev).2.2.1
    · have hlen2 : cs.length = ((lib.querySelectorAll popoverSelector w1).take k).length := by
        rw [List.length_take]; omega
      rw [script_of_raise lib w w1 u _ k hk cs e h rfl hlen hret hraise, h]
      have hc := trace_counts tocbotOptions (Except.ok u) popoverSelector
        (lib.querySelectorAll popoverSelector w1)
        ((lib.querySelectorAll popoverSelector w1).take k) cs
        [Event.newPopover ((lib.querySelectorAll popoverSelector w1).get ⟨k, hk⟩)
          (Except.error e)] hlen2 (by simp [Event.isNewPopover])
      refine ⟨_, rfl, ?_, hc.1⟩
      intro ev hev
      simp only [List.mem_cons, List.mem_append, List.mem_singleton, List.not_mem_nil,
        or_false] at hev
      rcases hev with hev | hev | hev
      · subst hev; rfl
      · exact (constructedEvents_all _ _ ev hev).2.2.1
      · subst hev; rfl
  · intro e w1 h
    exact script_of_init_raises lib w w1 e h
  · intro u w1 L cs h hL hlen hret
    have hs := script_of_returns lib w w1 u L cs h hL hlen hret
    have hc := trace_counts tocbotOptions (Except.ok u) popoverSelector L L
      cs ([] : List (Event El Ctrl Err)) hlen (by simp)
    simp only [List.append_nil, List.length_nil, Nat.add_zero, List.filterMap_nil] at hc
    refine ⟨hs, ?_, ?_, ?_, ?_⟩ <;> rw [hs]
    · exact hc.1
    · exact hc.2.1
    · exact hc.2.2.1
    · exact hc.2.2.2
  · intro u w1 L k hk cs e h hL hlen hret hraise
    have hs := script_of_raise lib w w1 u L k hk cs e h hL hlen hret hraise
    have hlen2 : cs.length = (L.take k).length := by
      rw [List.length_take]; omega
    have hc := trace_counts tocbotOptions (Except.ok u) popoverSelector L (L.take k) cs
      [Event.newPopover (L.get ⟨k, hk⟩) (Except.error e)] hlen2 (by simp [Event.isNewPopover])
    have hk2 : (L.take k).length = k := by rw [List.length_take]; omega
    refine ⟨hs, ?_, ?_, ?_, ?_⟩ <;> rw [hs]
    · exact hc.1
    · exact hc.2.1
    · rw [hc.2.2.1, hk2]; rfl
    · rw [hc.2.2.2]
      simp only [List.filterMap_cons, Event.popoverTriggerEl, List.filterMap_nil]
      rw [List.get_eq_getElem, List.take_succ, List.getElem?_eq_getElem hk]
      rfl

/-- C4 as amended, on a page with two popover triggers neither of which is the
one the constructor would raise on: the calls are `tocbot.init`, the query,
and one constructor call per trigger, and the state is as stated. -/
theorem C4_one_shot_witness :
    script ctorRaisesLib ⟨["a", "b"], 0⟩ =
      { world := ⟨["a", "b"], 3⟩
        trace := [Event.tocbotInit tocbotOptions (Except.ok ()),
                  Event.querySelectorAll popoverSelector ["a", "b"],
                  Event.newPopover "a" (Except.ok "Popover(a)"),
                  Event.newPopover "b" (Except.ok "Popover(b)")]
        popoverTriggerList := some ["a", "b"]
        popoverList := some ["Popover(a)", "Popover(b)"]
        completion := Except.ok () } :=
  ((C4_one_shot_call_sequence ctorRaisesLib ⟨["a", "b"], 0⟩).2.2.1
    () ⟨["a", "b"], 1⟩ ["a", "b"] ["Popover(a)", "Popover(b)"] rfl rfl rfl
    (fun i hi _ =>
      match i, hi with
      | 0, _ => rfl
      | 1, _ => rfl)).1

/-- C5 fails as stated: on a page with two popover triggers the finished script
still holds both collections, the matched elements in `popoverTriggerList` and
the constructed controllers in `popoverList`. -/
theorem C5_script_retains_collections :
    (script demoLib ⟨["a", "b"], 0⟩).completion = Except.ok () ∧
    (script demoLib ⟨["a", "b"], 0⟩).popoverTriggerList = some ["a", "b"] ∧
    (script demoLib ⟨["a", "b"], 0⟩).popoverList = some ["Popover(a)", "Popover(b)"] ∧
    ¬ ((script demoLib ⟨["a", "b"], 0⟩).popoverTriggerList = none ∧
        (script demoLib ⟨["a", "b"], 0⟩).popoverList = none) := by
  refine ⟨rfl, rfl, rfl, ?_⟩
  intro h
  exact absurd h.2 (by decide)

/-- C5 as amended: after the script has run, the outside world differs from
before only by what its library calls did (`tocbot.init`, then the constructor
on the matched elements in turn; with calls that change nothing, nothing is
changed), and the script does hold values of its own, its two top-level
constants.  If `tocbot.init` raised, both are unbound.  Otherwise
`popoverTriggerList` holds the matched elements, and `popoverList` holds
exactly the controllers the constructor returned, one per matched element in
order, when every constructor call of the run returned, and is unbound when
one raised.  Whenever `popoverList` is bound it is bound to such a list. -/
theorem C5_only_state_is_two_constants (lib : Lib W El Ctrl Err) (w : W) :
    ((∀ options v, (lib.tocbotInit options v).2 = v) →
      (∀ el v, (lib.newPopover el v).2 = v) →
      (script lib w).world = w) ∧
    (∀ (e : Err) (w1 : W),
      lib.tocbotInit tocbotOptions w = (Except.error e, w1) →
      (script lib w).world = w1 ∧
      (script lib w).popoverTriggerList = none ∧
      (script lib w).popoverList = none) ∧
    (∀ (u : Unit) (w1 : W) (L : List El) (cs : List Ctrl),
      lib.tocbotInit tocbotOptions w = (Except.ok u, w1) →
      lib.querySelectorAll popoverSelector w1 = L →
      cs.length = L.length →
      (∀ (i : Nat) (hi : i < L.length) (hc : i < cs.length),
        (lib.newPopover (L.get ⟨i, hi⟩) (worldAfter lib w1 (L.take i))).1
          = Except.ok (cs.get ⟨i, hc⟩)) →
      (script lib w).completion = Except.ok () ∧
      (script lib w).world = worldAfter lib w1 L ∧
      (script lib w).popoverTriggerList = some L ∧
      (script lib w).popoverList = some cs ∧
      ¬ ((script lib w).popoverTriggerList = none ∧ (script lib w).popoverList = none)) ∧
    (∀ (u : Unit) (w1 : W) (L : List El) (k : Nat) (hk : k < L.length) (cs : List Ctrl)
        (e : Err),
      lib.tocbotInit tocbotOptions w = (Except.ok u, w1) →
      lib.querySelectorAll popoverSelector w1 = L →
      cs.length = k →
      (∀ (i : Nat) (hi : i < L.length) (hc : i < cs.length),
        (lib.newPopover (L.get ⟨i, hi⟩) (worldAfter lib w1 (L.take i))).1
          = Except.ok (cs.get ⟨i, hc⟩)) →
      (lib.newPopover (L.get ⟨k, hk⟩) (worldAfter lib w1 (L.take k))).1 = Except.error e →
      (script lib w).completion = Except.error e ∧
      (script lib w).world = worldAfter lib w1 (L.take (k + 1)) ∧
      (script lib w).popoverTriggerList = some L ∧
      (script lib w).popoverList = none) ∧
    (∀ cs : List Ctrl,
      (script lib w).popoverList = some cs →
      (script lib w).completion = Except.ok () ∧
      (script lib w).popoverTriggerList
        = some (lib.querySelectorAll popoverSelector (lib.tocbotInit tocbotOptions w).2) ∧
      cs.length
        = (lib.querySelectorAll popoverSelector (lib.tocbotInit tocbotOptions w).2).length ∧
      ∀ (i : Nat)
          (hi : i < (lib.querySelectorAll popoverSelector
            (lib.tocbotInit tocbotOptions w).2).length)
          (hc : i < cs.length),
        (lib.newPopover
            ((lib.querySelectorAll popoverSelector (lib.tocbotInit tocbotOptions w).2).get
              ⟨i, hi⟩)
            (worldAfter lib (lib.tocbotInit tocbotOptions w).2
              ((lib.querySelectorAll popoverSelector (lib.tocbotInit tocbotOptions w).2).take
                i))).1
          = Except.ok (cs.get ⟨i, hc⟩)) := by
  refine ⟨?_, ?_, ?_, ?_, ?_⟩
  · intro htoc hctor
    have hw := htoc tocbotOptions w
    rcases h : lib.tocbotInit tocbotOptions w with ⟨r, w1⟩
    rw [h] at hw
    simp at hw
    subst hw
    cases r with
    | error e => simp [script, h]
    | ok u =>
      have hm := mapPopover_world_of_pure lib hctor (lib.querySelectorAll popoverSelector w1) w1
      rcases hr : mapPopover lib (lib.querySelectorAll popoverSelector w1) w1 with ⟨tr, w2, res⟩
      rw [hr] at hm
      simp at hm
      cases res <;> simp [script, h, popoverActivation, hr, hm]
  · intro e w1 h
    rw [script_of_init_raises lib w w1 e h]
    exact ⟨rfl, rfl, rfl⟩
  · intro u w1 L cs h hL hlen hret
    rw [script_of_returns lib w w1 u L cs h hL hlen hret]
    exact ⟨rfl, rfl, rfl, rfl, by simp⟩
  · intro u w1 L k hk cs e h hL hlen hret hraise
    rw [script_of_raise lib w w1 u L k hk cs e h hL hlen hret hraise]
    exact ⟨rfl, rfl, rfl, rfl⟩
  · intro cs hcs
    rcases script_cases lib w with ⟨e, w1, h⟩ | ⟨u, w1, cs1, h, hlen, hret⟩ |
      ⟨u, w1, k, hk, cs1, e, h, hlen, hret, hraise⟩
    · rw [script_of_init_raises lib w w1 e h] at hcs
      simp at hcs
    · have hs := script_of_returns lib w w1 u _ cs1 h rfl hlen hret
      rw [hs] at hcs
      simp only [Option.some.injEq] at hcs
      subst hcs
      rw [hs, h]
      exact ⟨rfl, rfl, hlen, hret⟩
    · rw [script_of_raise lib w w1 u _ k hk cs1 e h rfl hlen hret hraise] at hcs
      simp at hcs

/-- C5 as amended, on concrete pages: with collaborators that do not touch the
world the run leaves it unchanged, and with libraries whose calls return the
finished script holds both constants and the world is the one the calls left. -/
theorem C5_only_state_witness :
    (script inertLib ⟨["a"], 0⟩).world = ⟨["a"], 0⟩ ∧
    ((script demoLib ⟨["a", "b"], 0⟩).completion = Except.ok () ∧
      (script demoLib ⟨["a", "b"], 0⟩).world = ⟨["a", "b"], 3⟩ ∧
      (script demoLib ⟨["a", "b"], 0⟩).popoverTriggerList = some ["a", "b"] ∧
      (script demoLib ⟨["a", "b"], 0⟩).popoverList = some ["Popover(a)", "Popover(b)"]) :=
  ⟨(C5_only_state_is_two_constants inertLib ⟨["a"], 0⟩).1 (fun _ _ => rfl) (fun _ _ => rfl),
    have h := (C5_only_state_is_two_constants demoLib ⟨["a", "b"], 0⟩).2.2.1
      () ⟨["a", "b"], 1⟩ ["a", "b"] ["Popover(a)", "Popover(b)"] rfl rfl rfl
      (fun i hi _ =>
        match i, hi with
        | 0, _ => rfl
        | 1, _ => rfl)
    ⟨h.1, h.2.1, h.2.2.1, h.2.2.2.1⟩⟩

/-- C9: nothing is caught.  If `tocbot.init` raises, the script ends with that
thrown value, its only call is that one (no query, no constructor call) and
neither constant is bound.  If `tocbot.init` returns and, of the matched
elements `L`, the constructor returns on the first `k` (yielding controllers
`cs`) and raises on the next one, then the script ends with that thrown value,
the constructor calls are exactly the `k` returning ones followed by the
raising one, no call is made on a later element, exactly `k` controllers were
constructed and `popoverList` is left unbound. -/
theorem C9_failure_stops_the_rest (lib : Lib W El Ctrl Err) (w : W) :
    (∀ (e : Err) (w1 : W),
      lib.tocbotInit tocbotOptions w = (Except.error e, w1) →
      (script lib w).completion = Except.error e ∧
      (script lib w).trace = [Event.tocbotInit tocbotOptions (Except.error e)] ∧
      ((script lib w).trace.filter Event.isQuerySelectorAll).length = 0 ∧
      ((script lib w).trace.filter Event.isNewPopover).length = 0 ∧
      (script lib w).popoverTriggerList = none ∧
      (script lib w).popoverList = none ∧
      (script lib w).world = w1) ∧
    (∀ (u : Unit) (w1 w2 w3 : W) (L : List El) (k : Nat) (hk : k < L.length)
        (tr : List (Event El Ctrl Err)) (cs : List Ctrl) (e : Err),
      lib.tocbotInit tocbotOptions w = (Except.ok u, w1) →
      lib.querySelectorAll popoverSelector w1 = L →
      mapPopover lib (L.take k) w1 = (tr, w2, Except.ok cs) →
      lib.newPopover (L.get ⟨k, hk⟩) w2 = (Except.error e, w3) →
      (script lib w).completion = Except.error e ∧
      cs.length = k ∧
      (script lib w).trace
        = Event.tocbotInit tocbotOptions (Except.ok u) ::
          Event.querySelectorAll popoverSelector L ::
          (constructedEvents (L.take k) cs
            ++ [Event.newPopover (L.get ⟨k, hk⟩) (Except.error e)]) ∧
      ((script lib w).trace.filter Event.isConstructed).length = k ∧
      (script lib w).trace.filterMap Event.popoverTriggerEl = L.take (k + 1) ∧
      (script lib w).popoverTriggerList = some L ∧
      (script lib w).popoverList = none ∧
      (script lib w).world = w3) := by
  constructor
  · intro e w1 h
    simp [script, h, Event.isQuerySelectorAll, Event.isNewPopover]
  · intro u w1 w2 w3 L k hk tr cs e h hL hfirst hraise
    obtain ⟨hlen, htr, -⟩ := mapPopover_ok_shape lib _ w1 w2 tr cs hfirst
    subst htr
    have hsplit : L = L.take k ++ (L.get ⟨k, hk⟩ :: L.drop (k + 1)) := by
      rw [List.get_eq_getElem, List.getElem_cons_drop L k hk, List.take_append_drop]
    have hrun : mapPopover lib L w1
        = (constructedEvents (L.take k) cs
            ++ [Event.newPopover (L.get ⟨k, hk⟩) (Except.error e)], w3, Except.error e) := by
      have happ := mapPopover_append_ok lib (L.take k) (L.get ⟨k, hk⟩ :: L.drop (k + 1))
        w1 w2 _ cs hfirst
      rw [← hsplit, mapPopover_cons_error lib _ _ w2 w3 e hraise] at happ
      simpa using happ
    have hk2 : cs.length = k := by
      rw [hlen, List.length_take]
      omega
    have hev := @constructedEvents_all El Ctrl Err (L.take k) cs
    have htrace : (script lib w).trace
        = Event.tocbotInit tocbotOptions (Except.ok u) ::
          Event.querySelectorAll popoverSelector L ::
          (constructedEvents (L.take k) cs
            ++ [Event.newPopover (L.get ⟨k, hk⟩) (Except.error e)]) := by
      simp [script, h, popoverActivation, hL, hrun]
    refine ⟨by simp [script, h, popoverActivation, hL, hrun], hk2, htrace, ?_, ?_,
      by simp [script, h, popoverActivation, hL, hrun],
      by simp [script, h, popoverActivation, hL, hrun],
      by simp [script, h, popoverActivation, hL, hrun]⟩
    · rw [htrace]
      simp only [List.filter_cons, Event.isConstructed, Bool.false_eq_true, if_false,
        List.filter_append, List.filter_nil, List.append_nil]
      rw [filter_eq_self_of_all _ _ (fun ev h => (hev ev h).1),
        constructedEvents_length _ _ hlen, List.length_take]
      omega
    · rw [htrace]
      simp only [List.filterMap_cons, Event.popoverTriggerEl, List.filterMap_append,
        List.filterMap_nil, constructedEvents_elements _ _ hlen]
      rw [List.get_eq_getElem, List.take_succ, List.getElem?_eq_getElem hk]
      rfl

/-- C9 on concrete pages: with `tocbot` failing nothing else is called, and
with a constructor that raises on the second of three triggers exactly one
controller is constructed and the third trigger is never visited. -/
theorem C9_failure_witness :
    ((script tocRaisesLib ⟨["a", "b"], 0⟩).trace
        = [Event.tocbotInit tocbotOptions
            (Except.error "ReferenceError: tocbot is not defined")] ∧
      (script tocRaisesLib ⟨["a", "b"], 0⟩).popoverList = none) ∧
    ((script ctorRaisesLib ⟨["a", "bad", "c"], 0⟩).completion = Except.error "TypeError" ∧
      (script ctorRaisesLib ⟨["a", "bad", "c"], 0⟩).trace
        = [Event.tocbotInit tocbotOptions (Except.ok ()),
           Event.querySelectorAll popoverSelector ["a", "bad", "c"],
           Event.newPopover "a" (Except.ok "Popover(a)"),
           Event.newPopover "bad" (Except.error "TypeError")] ∧
      ((script ctorRaisesLib ⟨["a", "bad", "c"], 0⟩).trace.filter
        Event.isConstructed).length = 1) :=
  have hA := (C9_failure_stops_the_rest tocRaisesLib ⟨["a", "b"], 0⟩).1
    "ReferenceError: tocbot is not defined" ⟨["a", "b"], 0⟩ rfl
  have hB := (C9_failure_stops_the_rest ctorRaisesLib ⟨["a", "bad", "c"], 0⟩).2
    () ⟨["a", "bad", "c"], 1⟩ ⟨["a", "bad", "c"], 2⟩ ⟨["a", "bad", "c"], 2⟩
    ["a", "bad", "c"] 1 (by decide)
    [Event.newPopover "a" (Except.ok "Popover(a)")] ["Popover(a)"] "TypeError"
    rfl rfl rfl rfl
  ⟨⟨hA.2.1, hA.2.2.2.2.2.1⟩, ⟨hB.1, hB.2.2.1, hB.2.2.2.1⟩⟩

end Claims

end Sipa
